import Mathlib

/-!
Verification of the water-scarcity dashboard's color-scale and view logic.

The embedding follows the JavaScript source:
* colors are modelled in rgb space with rational channels before formatting
  and integer channels after d3-color's round-and-clamp formatting;
* d3.scaleLinear with a 3-element domain is the polymap of d3-scale
  (segment chosen by bisect, zero-length segments deinterpolate to 1/2,
  no clamping unless requested — the source never requests it);
* a feature's numeric properties are an association list of present JSON
  values, a present value being a number or null; a key that is not listed is
  JavaScript undefined.  The distinction matters: the map and chart code
  filters null and undefined identically, but TreeMap.js's skip guard checks
  only for undefined, so a present null passes it and coerces to 0 in the
  product.
-/

deriving instance DecidableEq for Except

namespace WaterScarcity

/-- An rgb color with rational channels, before d3-color formatting. -/
structure Rgb where
  r : ℚ
  g : ℚ
  b : ℚ
deriving DecidableEq, Repr

/-- An rgb color after d3-color formatting: channels rounded and clamped to [0, 255]. -/
structure RgbInt where
  r : ℤ
  g : ℤ
  b : ℤ
deriving DecidableEq, Repr

/-- JavaScript Math.round: round half toward positive infinity. -/
def jsRound (q : ℚ) : ℤ := (q + 1/2).floor

/-- d3-color channel formatting: round, then clamp into [0, 255]. -/
def clampChannel (q : ℚ) : ℤ := max 0 (min 255 (jsRound q))

def formatRgb (c : Rgb) : RgbInt := ⟨clampChannel c.r, clampChannel c.g, clampChannel c.b⟩

/-- d3-interpolate interpolateRgb without gamma: per-channel linear interpolation. -/
def interpolateRgb (a b : Rgb) (t : ℚ) : Rgb :=
  ⟨a.r + t * (b.r - a.r), a.g + t * (b.g - a.g), a.b + t * (b.b - a.b)⟩

/-- d3-scale normalize: deinterpolate x over [a, b]; constant 1/2 when the segment
has zero length (this is d3's internal division-by-zero guard). -/
def deinterpolate (a b x : ℚ) : ℚ :=
  if b - a = 0 then 1/2 else (x - a) / (b - a)

/-- d3 polymap over an ascending 3-element domain: bisect picks the segment
(index 1 if x is below the middle stop, else index 2), then the segment's
interpolator is applied to the deinterpolated position.  No clamping. -/
def polymap3Asc (d0 d1 d2 : ℚ) (c0 c1 c2 : Rgb) (x : ℚ) : Rgb :=
  if x < d1 then interpolateRgb c0 c1 (deinterpolate d0 d1 x)
  else interpolateRgb c1 c2 (deinterpolate d1 d2 x)

/-- d3 polymap over a 3-element domain: a descending domain is reversed together
with its range before segment lookup. -/
def polymap3 (d0 d1 d2 : ℚ) (c0 c1 c2 : Rgb) (x : ℚ) : Rgb :=
  if d2 < d0 then polymap3Asc d2 d1 d0 c2 c1 c0 x else polymap3Asc d0 d1 d2 c0 c1 c2 x

/-- d3.scaleLinear with a 3-stop color range, as returned to callers:
polymap then rgb formatting. -/
def scaleLinear3 (d0 d1 d2 : ℚ) (c0 c1 c2 : Rgb) (x : ℚ) : RgbInt :=
  formatRgb (polymap3 d0 d1 d2 c0 c1 c2 x)

/-- d3 bimap over a 2-element domain (scaleLinear with two stops), no clamping. -/
def bimap2 (d0 d1 : ℚ) (c0 c1 : Rgb) (x : ℚ) : Rgb :=
  if d1 < d0 then interpolateRgb c1 c0 (deinterpolate d1 d0 x)
  else interpolateRgb c0 c1 (deinterpolate d0 d1 x)

/-- d3.scaleLinear with a 2-stop color range: bimap then rgb formatting. -/
def scaleLinear2 (d0 d1 : ℚ) (c0 c1 : Rgb) (x : ℚ) : RgbInt :=
  formatRgb (bimap2 d0 d1 c0 c1 x)

/-- The low stop of the diverging scale, hex 2c7bb6. -/
def colorLow : Rgb := ⟨44, 123, 182⟩

/-- The middle stop of the diverging scale, hex ffffbf. -/
def colorMid : Rgb := ⟨255, 255, 191⟩

/-- The high stop of the diverging scale, hex d7191c. -/
def colorHigh : Rgb := ⟨215, 25, 28⟩

/-- The low stop of the fixed continuous scale, hex fee5d9. -/
def colorMonthlyLow : Rgb := ⟨254, 229, 217⟩

/-- The high stop of the fixed continuous scale, hex a50f15. -/
def colorMonthlyHigh : Rgb := ⟨165, 15, 21⟩

/-- A GeoJSON feature: its numeric properties as an association list of
present values (`some q` a number, `none` a JSON null; an unlisted key is
undefined), plus the RIVERBASIN and CONTINENT string properties. -/
structure Feature where
  numProps : List (String × Option ℚ)
  riverbasin : Option String
  continent : Option String
deriving DecidableEq, Repr

/-- The source's raw feature.properties[key]: `none` is JavaScript undefined
(key absent), `some none` is a present null, `some (some q)` a number. -/
def Feature.getRaw (f : Feature) (key : String) : Option (Option ℚ) :=
  f.numProps.lookup key

/-- feature.properties[key] seen through the null/undefined checks used by
the map and chart code (the v not-null and not-undefined filters, and the
JavaScript or-zero): the value when it is a present number, `none` for both
null and undefined. -/
def Feature.getNum (f : Feature) (key : String) : Option ℚ :=
  match f.getRaw key with
  | some (some q) => some q
  | _ => none

/-- When the filtered view yields a number, the raw property is that number. -/
theorem Feature.getRaw_of_getNum {f : Feature} {key : String} {a : ℚ}
    (h : f.getNum key = some a) : f.getRaw key = some (some a) := by
  unfold Feature.getNum at h
  cases hr : f.getRaw key with
  | none => rw [hr] at h; exact absurd h (by simp)
  | some o =>
    cases o with
    | none => rw [hr] at h; exact absurd h (by simp)
    | some q =>
      rw [hr] at h
      simp only [Option.some.injEq] at h
      rw [h]

def MONTHS : List String :=
  ["jan", "feb", "mar", "apr", "may", "jun", "jul", "aug", "sep", "oct", "nov", "dec"]

/-- Map.js calculateMonthlyGlobalMinMax's allValues: every present monthly value
of every feature, absent values filtered out. -/
def allMonthlyValues (features : List Feature) : List ℚ :=
  features.flatMap (fun f => (MONTHS.map f.getNum).filterMap id)

/-- Map.js calculateMonthlyGlobalMinMax: the global minimum and maximum over all
features and all twelve months (none when no value is present). -/
def calculateMonthlyGlobalMinMax (features : List Feature) : Option ℚ × Option ℚ :=
  ((allMonthlyValues features).min?, (allMonthlyValues features).max?)

/-- Map.js createFixedContinuousColorScale: a two-stop linear scale from
colorMonthlyLow to colorMonthlyHigh over the domain [mn, mx]. -/
def createFixedContinuousColorScale (mn mx : ℚ) (x : ℚ) : RgbInt :=
  scaleLinear2 mn mx colorMonthlyLow colorMonthlyHigh x

/-- Map.js createDivergingColorScale's values: the selected property of every
feature, with null/undefined filtered out. -/
def extractValues (features : List Feature) (property : String) : List ℚ :=
  (features.map (fun f => f.getNum property)).filterMap id

/-- JavaScript values.sort with the ascending numeric comparator: a stable
ascending sort. -/
def sortedAsc (values : List ℚ) : List ℚ :=
  values.insertionSort (fun a b => a ≤ b)

/-- The cutoff computation of Map.js createDivergingColorScale: percentile
indexes the ascending sort at floor(length × cutoffValue), mean averages,
fixed uses the supplied value, anything else throws.  An out-of-range
percentile index or an empty mean is JavaScript undefined/NaN, here `none`. -/
def computeCutoff (values : List ℚ) (cutoffType : String) (cutoffValue : ℚ) :
    Except String (Option ℚ) :=
  if cutoffType = "percentile" then
    let cutoffIndex : ℤ := ((values.length : ℚ) * cutoffValue).floor
    .ok (if cutoffIndex < 0 then none else (sortedAsc values)[cutoffIndex.toNat]?)
  else if cutoffType = "mean" then
    .ok (if values.length = 0 then none else some (values.sum / (values.length : ℚ)))
  else if cutoffType = "fixed" then
    .ok (some cutoffValue)
  else
    .error "Invalid cutoffType. Use percentile, mean, or fixed."

/-- The diverging scale as constructed: its domain breakpoints.  A `none`
breakpoint models JavaScript undefined/NaN from an empty value set. -/
structure DivergingScale where
  minValue : Option ℚ
  minCutoff : Option ℚ
  maxValue : Option ℚ
deriving DecidableEq, Repr

/-- Map.js createDivergingColorScale: extract values, compute the cutoff
(throwing on an unrecognized cutoffType), take the extent, and return the
three-stop scale.  Defaults mirror the source: percentile at 0.3. -/
def createDivergingColorScale (features : List Feature) (property : String)
    (cutoffType : String := "percentile") (cutoffValue : ℚ := 3/10) :
    Except String DivergingScale :=
  let values := extractValues features property
  (computeCutoff values cutoffType cutoffValue).map (fun cutoff =>
    ⟨values.min?, cutoff, values.max?⟩)

/-- Apply the constructed diverging scale to a value: the d3 three-stop linear
scale over (minValue, minCutoff, maxValue) with the fixed colors.  `none`
when a breakpoint is undefined. -/
def DivergingScale.apply (s : DivergingScale) (x : ℚ) : Option RgbInt :=
  match s.minValue, s.minCutoff, s.maxValue with
  | some d0, some d1, some d2 => some (scaleLinear3 d0 d1 d2 colorLow colorMid colorHigh x)
  | _, _, _ => none

/-- BarChart's monthlyData: the twelve monthly values of a basin in calendar
order, a missing month contributing 0 (the source's JavaScript or-zero). -/
def monthlySeries (f : Feature) : List ℚ :=
  MONTHS.map (fun m => (f.getNum m).getD 0)

/-- What the BarChart component renders. -/
inductive BarView where
  | placeholder
  | noData
  | chart (basin : Feature) (series : List ℚ)
deriving DecidableEq, Repr

/-- The source's data.find on RIVERBASIN: the first feature whose RIVERBASIN
strictly equals the given name. -/
def findBasin (data : List Feature) (name : String) : Option Feature :=
  data.find? (fun item => item.riverbasin == some name)

/-- The BarChart component: a falsy selection (null, undefined or the empty
string) renders the placeholder prompt; otherwise the selection is resolved
to a feature, falling back to the first AMUR feature, and a missing basin
renders the no-data message. -/
def barChart (data : List Feature) (selectedBasin : Option String) : BarView :=
  match selectedBasin with
  | none => .placeholder
  | some s =>
    if s = "" then .placeholder
    else
      match (findBasin data s).orElse (fun _ => findBasin data "AMUR") with
      | some basinData => .chart basinData (monthlySeries basinData)
      | none => .noData

/-- The fill of a polygon: the fixed no-data gray (hex d3d3d3) or a color
produced by the active color scale. -/
inductive FillColor where
  | noDataGray
  | scaled (c : RgbInt)
deriving DecidableEq, Repr

/-- The style record Map.js geoJSONStyle returns for a polygon. -/
structure LayerStyle where
  fillColor : FillColor
  weight : ℚ
  opacity : ℚ
  color : String
  dashArray : String
  fillOpacity : ℚ
  interactive : Bool
deriving DecidableEq, Repr

/-- JavaScript strict equality between the RIVERBASIN property (a string or
undefined) and the selection (a string or null): true only when both are
strings and equal. -/
def strictEqName : Option String → Option String → Bool
  | some a, some b => a = b
  | _, _ => false

/-- Map.js geoJSONStyle: gray translucent fill for a missing value, scaled
color otherwise; thick blue border exactly for the feature whose RIVERBASIN
strictly equals the selected map area. -/
def geoJSONStyle (colorScale : ℚ → RgbInt) (property : String) (feature : Feature)
    (selectedMapArea : Option String) (showRivers : Bool) : LayerStyle :=
  let value := feature.getNum property
  let isSelected := strictEqName feature.riverbasin selectedMapArea
  { fillColor := match value with
      | none => .noDataGray
      | some v => .scaled (colorScale v)
    weight := if isSelected then 5 else 2
    opacity := 1
    color := if isSelected then "blue" else "white"
    dashArray := "3"
    fillOpacity := match value with
      | none => 1/2
      | some _ => 7/10
    interactive := !showRivers }

/-- JavaScript numeric coercion of a present property value: null is 0. -/
def nullToZero : Option ℚ → ℚ
  | none => 0
  | some q => q

/-- A node of the treemap hierarchy, as TreeMap.js pushes it: value is the
numeric product, while population and waterScarcity hold the raw property
values, which can be null. -/
structure TreeNode where
  id : Option String
  value : ℚ
  population : Option ℚ
  waterScarcity : Option ℚ
  continent : Option String
deriving DecidableEq, Repr

/-- The treemap hierarchy: a root name and its children. -/
structure Hierarchy where
  name : String
  children : List TreeNode
deriving DecidableEq, Repr

/-- The descending-by-value comparator of TreeMap.js's sort. -/
def byValueDesc (a b : TreeNode) : Prop := b.value ≤ a.value

instance : DecidableRel byValueDesc := fun a b => inferInstanceAs (Decidable (b.value ≤ a.value))

instance : IsTotal TreeNode byValueDesc := ⟨fun a b => le_total b.value a.value⟩

instance : IsTrans TreeNode byValueDesc := ⟨fun _ _ _ h1 h2 => le_trans h2 h1⟩

/-- TreeMap.js calculateWaterScarcity: skip a feature only when its average
or population is strictly undefined (the source checks nothing else, so a
present null passes), push value = waterScarcity × population under
JavaScript coercion (null is 0) together with the raw property values, then
sort the children descending by value (a stable sort, as JavaScript's). -/
def calculateWaterScarcity (features : List Feature) : Hierarchy :=
  let children := features.filterMap (fun item =>
    match item.getRaw "average", item.getRaw "population" with
    | some waterScarcity, some population =>
        some ⟨item.riverbasin, nullToZero waterScarcity * nullToZero population,
          population, waterScarcity, item.continent⟩
    | _, _ => none)
  ⟨"Water Scarcity * Population", children.insertionSort byValueDesc⟩

/-! Concrete fixtures used by examples and witnesses. -/

/-- A feature carrying only the average-scarcity statistic. -/
def avgFeat (name : String) (v : ℚ) : Feature := ⟨[("average", some v)], some name, none⟩

/-- Ten features whose average values are 1..10, the spec's worked example. -/
def feats1to10 : List Feature :=
  [avgFeat "b1" 1, avgFeat "b2" 2, avgFeat "b3" 3, avgFeat "b4" 4, avgFeat "b5" 5,
   avgFeat "b6" 6, avgFeat "b7" 7, avgFeat "b8" 8, avgFeat "b9" 9, avgFeat "b10" 10]

/-- A feature with population and average defined, the spec's treemap example. -/
def featBig : Feature :=
  ⟨[("average", some 5), ("population", some 1000000)], some "BIG", none⟩

/-- A feature missing its jul month (only jan is present). -/
def featNoJul : Feature := ⟨[("jan", some 3)], some "X", none⟩

/-- Two features whose monthly values have global minimum 0 and maximum 100. -/
def monthFeats : List Feature :=
  [⟨[("jan", some 0)], some "W1", none⟩, ⟨[("feb", some 100)], some "W2", none⟩]

/-- A feature whose average is a present null (the dataset's missing-value
encoding) and whose population is a number. -/
def featNullAvg : Feature :=
  ⟨[("average", none), ("population", some 1000000)], some "NULLBASIN", none⟩

/-- A constant stand-in color scale for style checks. -/
def constScale : ℚ → RgbInt := fun _ => ⟨0, 0, 0⟩

/-! Helper lemmas. -/

/-- A list's min? is a member and a lower bound. -/
theorem min?_spec {l : List ℚ} {a : ℚ} (h : l.min? = some a) : a ∈ l ∧ ∀ b ∈ l, a ≤ b := by
  have : Std.Antisymm (α := ℚ) (· ≤ ·) := ⟨fun h1 h2 => le_antisymm h1 h2⟩
  rw [List.min?_eq_some_iff] at h
  · exact h
  all_goals simp [le_total]

/-- A list's max? is a member and an upper bound. -/
theorem max?_spec {l : List ℚ} {a : ℚ} (h : l.max? = some a) : a ∈ l ∧ ∀ b ∈ l, b ≤ a := by
  have : Std.Antisymm (α := ℚ) (· ≤ ·) := ⟨fun h1 h2 => le_antisymm h1 h2⟩
  rw [List.max?_eq_some_iff] at h
  · exact h
  all_goals simp [le_total]

/-- Channelwise order on raw rgb colors. -/
def chanLe (a b : Rgb) : Prop := a.r ≤ b.r ∧ a.g ≤ b.g ∧ a.b ≤ b.b

/-- On the low side of the middle stop (including every extrapolated input
below the domain), the 3-stop polymap is the linear interpolation of the
first segment. -/
theorem polymap3_left (d0 d1 d2 : ℚ) (c0 c1 c2 : Rgb) (h01 : d0 < d1) (h12 : d1 < d2)
    (x : ℚ) (hx1 : x ≤ d1) :
    polymap3 d0 d1 d2 c0 c1 c2 x = interpolateRgb c0 c1 ((x - d0) / (d1 - d0)) := by
  have h02 : ¬ d2 < d0 := not_lt.mpr (le_of_lt (lt_trans h01 h12))
  have hne : d1 - d0 ≠ 0 := sub_ne_zero.mpr (ne_of_gt h01)
  rcases lt_or_eq_of_le hx1 with hlt | rfl
  · simp [polymap3, polymap3Asc, deinterpolate, h02, hlt, hne]
  · have hne2 : d2 - x ≠ 0 := sub_ne_zero.mpr (ne_of_gt h12)
    simp [polymap3, polymap3Asc, deinterpolate, h02, lt_irrefl, hne, hne2,
      interpolateRgb, div_self hne]

/-- On the high side of the middle stop (including every extrapolated input
above the domain), the 3-stop polymap is the linear interpolation of the
second segment. -/
theorem polymap3_right (d0 d1 d2 : ℚ) (c0 c1 c2 : Rgb) (h01 : d0 < d1) (h12 : d1 < d2)
    (x : ℚ) (hx1 : d1 ≤ x) :
    polymap3 d0 d1 d2 c0 c1 c2 x = interpolateRgb c1 c2 ((x - d1) / (d2 - d1)) := by
  have h02 : ¬ d2 < d0 := not_lt.mpr (le_of_lt (lt_trans h01 h12))
  have hne : d2 - d1 ≠ 0 := sub_ne_zero.mpr (ne_of_gt h12)
  simp [polymap3, polymap3Asc, deinterpolate, h02, not_lt.mpr hx1, hne]

/-- Linear rgb interpolation is channelwise monotone in t when the target
color dominates the start color channelwise. -/
theorem interpolateRgb_mono {a b : Rgb} (hr : a.r ≤ b.r) (hg : a.g ≤ b.g) (hb : a.b ≤ b.b)
    {s t : ℚ} (hst : s ≤ t) : chanLe (interpolateRgb a b s) (interpolateRgb a b t) := by
  refine ⟨?_, ?_, ?_⟩ <;> simp only [interpolateRgb] <;>
    exact add_le_add_left (mul_le_mul_of_nonneg_right hst (by linarith)) _

/-- Linear rgb interpolation is channelwise antitone in t when the start
color dominates the target color channelwise. -/
theorem interpolateRgb_anti {a b : Rgb} (hr : b.r ≤ a.r) (hg : b.g ≤ a.g) (hb : b.b ≤ a.b)
    {s t : ℚ} (hst : s ≤ t) : chanLe (interpolateRgb a b t) (interpolateRgb a b s) := by
  refine ⟨?_, ?_, ?_⟩ <;> simp only [interpolateRgb] <;>
    exact add_le_add_left (mul_le_mul_of_nonpos_right hst (by linarith)) _

/-! Claim theorems. -/

unseal Rat.add Rat.mul Rat.inv Rat.sub in
/-- C1: for the diverging scale with the percentile cutoff strategy at the
default fraction p = 0.3, the cutoff is the element at index floor(n × 0.3)
of the value set sorted ascending (zero-indexed); over the values 1..10 that
index is 3 and the cutoff is 4. -/
theorem percentile_cutoff_at_floor_index (features : List Feature) (property : String) :
    (createDivergingColorScale features property).map DivergingScale.minCutoff =
      Except.ok ((sortedAsc (extractValues features property))[((((extractValues features property).length : ℚ) * (3/10)).floor).toNat]?) ∧
    (createDivergingColorScale feats1to10 "average").map DivergingScale.minCutoff =
      Except.ok (some 4) := by
  constructor
  · have h0 : (0 : ℤ) ≤ (((extractValues features property).length : ℚ) * (3/10)).floor :=
      Rat.le_floor.mpr (by positivity)
    simp [createDivergingColorScale, computeCutoff, not_lt.mpr h0, Except.map]
  · decide

unseal Rat.add Rat.mul Rat.inv Rat.sub in
/-- C2 counterexample: the diverging scale built over the values 1..10 has
minValue 1, yet the input 0, strictly below minValue, maps to rgb(0, 79, 179)
and not to colorLow rgb(44, 123, 182): the returned function extrapolates
below the domain instead of clamping to the endpoint color. -/
theorem diverging_scale_not_clamped_below_min :
    (createDivergingColorScale feats1to10 "average").map DivergingScale.minValue =
      Except.ok (some 1) ∧
    (createDivergingColorScale feats1to10 "average").map (fun s => s.apply 0) =
      Except.ok (some (⟨0, 79, 179⟩ : RgbInt)) ∧
    formatRgb colorLow = ⟨44, 123, 182⟩ ∧
    (⟨0, 79, 179⟩ : RgbInt) ≠ (⟨44, 123, 182⟩ : RgbInt) := by
  refine ⟨by decide, by decide, by decide, by decide⟩

/-- C2 amended: the color function of a successfully built diverging scale
with strictly increasing breakpoints is total (always returns a color, never
throws), maps the three breakpoints exactly to colorLow, colorMid and
colorHigh, and on each side of the middle stop is the linear channelwise
interpolation of that segment (hence channelwise monotone); inputs outside
[minValue, maxValue] extrapolate this linear map rather than clamping to the
endpoint colors. -/
theorem diverging_scale_segments (features : List Feature) (property : String)
    (s : DivergingScale) (d0 d1 d2 : ℚ)
    (_hs : createDivergingColorScale features property = Except.ok s)
    (h0 : s.minValue = some d0) (h1 : s.minCutoff = some d1) (h2 : s.maxValue = some d2)
    (h01 : d0 < d1) (h12 : d1 < d2) :
    (∀ x, s.apply x = some (scaleLinear3 d0 d1 d2 colorLow colorMid colorHigh x)) ∧
    s.apply d0 = some (formatRgb colorLow) ∧
    s.apply d1 = some (formatRgb colorMid) ∧
    s.apply d2 = some (formatRgb colorHigh) ∧
    (∀ x, x ≤ d1 → polymap3 d0 d1 d2 colorLow colorMid colorHigh x =
      interpolateRgb colorLow colorMid ((x - d0) / (d1 - d0))) ∧
    (∀ x, d1 ≤ x → polymap3 d0 d1 d2 colorLow colorMid colorHigh x =
      interpolateRgb colorMid colorHigh ((x - d1) / (d2 - d1))) ∧
    (∀ x y, x ≤ y → y ≤ d1 →
      chanLe (polymap3 d0 d1 d2 colorLow colorMid colorHigh x)
        (polymap3 d0 d1 d2 colorLow colorMid colorHigh y)) ∧
    (∀ x y, d1 ≤ x → x ≤ y →
      chanLe (polymap3 d0 d1 d2 colorLow colorMid colorHigh y)
        (polymap3 d0 d1 d2 colorLow colorMid colorHigh x)) := by
  have happ : ∀ x, s.apply x = some (scaleLinear3 d0 d1 d2 colorLow colorMid colorHigh x) := by
    intro x
    simp [DivergingScale.apply, h0, h1, h2]
  have hLeft := fun x hx => polymap3_left d0 d1 d2 colorLow colorMid colorHigh h01 h12 x hx
  have hRight := fun x hx => polymap3_right d0 d1 d2 colorLow colorMid colorHigh h01 h12 x hx
  have hne0 : d1 - d0 ≠ 0 := sub_ne_zero.mpr (ne_of_gt h01)
  have hne1 : d2 - d1 ≠ 0 := sub_ne_zero.mpr (ne_of_gt h12)
  refine ⟨happ, ?_, ?_, ?_, hLeft, hRight, ?_, ?_⟩
  · rw [happ d0, scaleLinear3, hLeft d0 (le_of_lt h01)]
    simp [interpolateRgb, colorLow, colorMid]
  · rw [happ d1, scaleLinear3, hRight d1 le_rfl]
    simp [interpolateRgb, colorMid, colorHigh]
  · rw [happ d2, scaleLinear3, hRight d2 (le_of_lt h12)]
    simp [interpolateRgb, colorMid, colorHigh, div_self hne1]
  · intro x y hxy hy1
    rw [hLeft x (le_trans hxy hy1), hLeft y hy1]
    refine interpolateRgb_mono (by norm_num [colorLow, colorMid])
      (by norm_num [colorLow, colorMid]) (by norm_num [colorLow, colorMid]) ?_
    exact (div_le_div_iff_of_pos_right (by linarith)).mpr (by linarith)
  · intro x y hx1 hxy
    rw [hRight x hx1, hRight y (le_trans hx1 hxy)]
    refine interpolateRgb_anti (by norm_num [colorMid, colorHigh])
      (by norm_num [colorMid, colorHigh]) (by norm_num [colorMid, colorHigh]) ?_
    exact (div_le_div_iff_of_pos_right (by linarith)).mpr (by linarith)

unseal Rat.add Rat.mul Rat.inv Rat.sub in
/-- C2 witness: the amended theorem instantiated on the scale built over the
values 1..10, whose breakpoints are 1 < 4 < 10; its hypotheses hold there and
the scale maps the breakpoint 1 exactly to colorLow. -/
theorem diverging_scale_segments_witness :
    createDivergingColorScale feats1to10 "average" =
      Except.ok (DivergingScale.mk (some 1) (some 4) (some 10)) ∧
    (1 : ℚ) < 4 ∧ (4 : ℚ) < 10 ∧
    (DivergingScale.mk (some 1) (some 4) (some 10)).apply 1 = some (formatRgb colorLow) :=
  ⟨by decide, by decide, by decide,
    (diverging_scale_segments feats1to10 "average"
      (DivergingScale.mk (some 1) (some 4) (some 10)) 1 4 10 (by decide) rfl rfl rfl
      (by decide) (by decide)).2.1⟩

/-- A nonempty list all of whose elements equal v has min? v. -/
theorem min?_of_const {l : List ℚ} {v : ℚ} (hne : l ≠ []) (hall : ∀ w ∈ l, w = v) :
    l.min? = some v := by
  cases h : l.min? with
  | none => exact absurd (List.min?_eq_none_iff.mp h) hne
  | some m => rw [hall m (min?_spec h).1]

/-- A nonempty list all of whose elements equal v has max? v. -/
theorem max?_of_const {l : List ℚ} {v : ℚ} (hne : l ≠ []) (hall : ∀ w ∈ l, w = v) :
    l.max? = some v := by
  cases h : l.max? with
  | none => exact absurd (List.max?_eq_none_iff.mp h) hne
  | some m => rw [hall m (max?_spec h).1]

unseal Rat.add Rat.mul Rat.inv Rat.sub in
/-- C3 counterexample: over the single-value set {5} the builder returns the
degenerate domain (5, 5, 5) without raising, but the input 5 maps to
rgb(235, 140, 110) — the half blend of colorMid and colorHigh — and not to
colorMid rgb(255, 255, 191). -/
theorem degenerate_scale_not_colorMid :
    createDivergingColorScale [avgFeat "ONLY" 5] "average" =
      Except.ok (DivergingScale.mk (some 5) (some 5) (some 5)) ∧
    (DivergingScale.mk (some 5) (some 5) (some 5)).apply 5 =
      some (⟨235, 140, 110⟩ : RgbInt) ∧
    formatRgb colorMid = ⟨255, 255, 191⟩ ∧
    (⟨235, 140, 110⟩ : RgbInt) ≠ (⟨255, 255, 191⟩ : RgbInt) := by
  refine ⟨by decide, by decide, by decide, by decide⟩

/-- C3 amended: on a value set with exactly one distinct value v, the builder
returns the degenerate domain (v, v, v) without raising and its color
function is total; d3's zero-length-segment guard deinterpolates every input
to 1/2, so inputs below v map to the half blend of colorLow and colorMid and
inputs at or above v map to the half blend of colorMid and colorHigh — not
to colorMid itself. -/
theorem diverging_scale_single_value (features : List Feature) (property : String) (v : ℚ)
    (hne : extractValues features property ≠ [])
    (hall : ∀ w ∈ extractValues features property, w = v) :
    createDivergingColorScale features property =
      Except.ok (DivergingScale.mk (some v) (some v) (some v)) ∧
    ∀ x, (DivergingScale.mk (some v) (some v) (some v)).apply x =
      some (if x < v then formatRgb (interpolateRgb colorLow colorMid (1/2))
            else formatRgb (interpolateRgb colorMid colorHigh (1/2))) := by
  constructor
  · have hlen : 0 < (extractValues features property).length :=
      List.length_pos.mpr hne
    have hidx0 : (0 : ℤ) ≤ (((extractValues features property).length : ℚ) * (3/10)).floor :=
      Rat.le_floor.mpr (by positivity)
    have hidxlt : ((((extractValues features property).length : ℚ) * (3/10)).floor).toNat <
        (extractValues features property).length := by
      by_contra hge
      push_neg at hge
      have : ((extractValues features property).length : ℤ) ≤
          (((extractValues features property).length : ℚ) * (3/10)).floor := by
        omega
      have hle : ((extractValues features property).length : ℚ) ≤
          ((extractValues features property).length : ℚ) * (3/10) := by
        exact_mod_cast Rat.le_floor.mp this
      nlinarith [hlen, (by exact_mod_cast hlen : (0 : ℚ) < ((extractValues features property).length : ℚ))]
    have hsortlen : (sortedAsc (extractValues features property)).length =
        (extractValues features property).length := by
      simp [sortedAsc]
    have hget : (sortedAsc (extractValues features property))[((((extractValues features property).length : ℚ) * (3/10)).floor).toNat]? =
        some v := by
      rw [List.getElem?_eq_getElem (by rw [hsortlen]; exact hidxlt)]
      congr 1
      have hmem : (sortedAsc (extractValues features property))[((((extractValues features property).length : ℚ) * (3/10)).floor).toNat] ∈
          sortedAsc (extractValues features property) :=
        List.getElem_mem _
      simp only [sortedAsc, List.mem_insertionSort] at hmem
      exact hall _ hmem
    simp [createDivergingColorScale, computeCutoff, not_lt.mpr hidx0, Except.map, hget,
      min?_of_const hne hall, max?_of_const hne hall]
  · intro x
    by_cases hx : x < v
    · simp [DivergingScale.apply, scaleLinear3, polymap3, polymap3Asc, deinterpolate,
        lt_irrefl, hx]
    · simp [DivergingScale.apply, scaleLinear3, polymap3, polymap3Asc, deinterpolate,
        lt_irrefl, hx]

unseal Rat.add Rat.mul Rat.inv Rat.sub in
/-- C3 witness: the amended theorem instantiated on the one-feature collection
with average 5: the value set is the nonempty constant set {5}. -/
theorem diverging_scale_single_value_witness :
    extractValues [avgFeat "ONLY" 5] "average" ≠ [] ∧
    (createDivergingColorScale [avgFeat "ONLY" 5] "average" =
      Except.ok (DivergingScale.mk (some 5) (some 5) (some 5)) ∧
    ∀ x, (DivergingScale.mk (some 5) (some 5) (some 5)).apply x =
      some (if x < 5 then formatRgb (interpolateRgb colorLow colorMid (1/2))
            else formatRgb (interpolateRgb colorMid colorHigh (1/2)))) :=
  ⟨by decide, diverging_scale_single_value [avgFeat "ONLY" 5] "average" 5
    (by decide) (by decide)⟩

/-- C4 counterexample: with the collection containing the AMUR feature and the
unresolvable selection NOPE, the bar-chart view falls back to AMUR, but the
map view styles the AMUR polygon with the unselected border (weight 2, white)
instead of the selected one (weight 5, blue) it gives when AMUR itself is
selected: the map view does not resolve the selection to the default basin. -/
theorem map_view_has_no_default_fallback :
    barChart [avgFeat "AMUR" 3] (some "NOPE") =
      .chart (avgFeat "AMUR" 3) (monthlySeries (avgFeat "AMUR" 3)) ∧
    (geoJSONStyle constScale "average" (avgFeat "AMUR" 3) (some "NOPE") false).weight = 2 ∧
    (geoJSONStyle constScale "average" (avgFeat "AMUR" 3) (some "NOPE") false).color =
      "white" ∧
    (geoJSONStyle constScale "average" (avgFeat "AMUR" 3) (some "AMUR") false).weight = 5 ∧
    (geoJSONStyle constScale "average" (avgFeat "AMUR" 3) (some "AMUR") false).color =
      "blue" := by
  refine ⟨by decide, by decide, by decide, by decide, by decide⟩

/-- C4 amended: when the selection is a nonempty basin name matching no
feature of the collection, the bar-chart view resolves it to the first AMUR
feature, while the map view gives every feature the unselected style (weight
2, white border) — it renders all polygons unhighlighted rather than
resolving the selection to the default basin. -/
theorem unresolvable_selection_views (data : List Feature) (s : String) (b : Feature)
    (hs : s ≠ "") (hnone : ∀ f ∈ data, f.riverbasin ≠ some s)
    (hAMUR : findBasin data "AMUR" = some b) :
    barChart data (some s) = .chart b (monthlySeries b) ∧
    ∀ cs prop f showR, f ∈ data →
      (geoJSONStyle cs prop f (some s) showR).weight = 2 ∧
      (geoJSONStyle cs prop f (some s) showR).color = "white" := by
  have hfind : findBasin data s = none := by
    rw [findBasin, List.find?_eq_none]
    intro f hf
    simpa using hnone f hf
  constructor
  · simp [barChart, hs, hfind, Option.orElse, hAMUR]
  · intro cs prop f showR hf
    have hsel : strictEqName f.riverbasin (some s) = false := by
      cases hrb : f.riverbasin with
      | none => rfl
      | some a =>
        have : some a ≠ some s := hrb ▸ hnone f hf
        simp only [strictEqName, decide_eq_false_iff_not]
        intro hEq
        exact this (by rw [hEq])
    constructor <;> simp [geoJSONStyle, hsel]

/-- C4 witness: the amended theorem instantiated on the one-feature AMUR
collection with the unresolvable selection NOPE. -/
theorem unresolvable_selection_views_witness :
    ("NOPE" ≠ "" ∧ findBasin [avgFeat "AMUR" 3] "AMUR" = some (avgFeat "AMUR" 3)) ∧
    (barChart [avgFeat "AMUR" 3] (some "NOPE") =
      .chart (avgFeat "AMUR" 3) (monthlySeries (avgFeat "AMUR" 3)) ∧
    ∀ cs prop f showR, f ∈ [avgFeat "AMUR" 3] →
      (geoJSONStyle cs prop f (some "NOPE") showR).weight = 2 ∧
      (geoJSONStyle cs prop f (some "NOPE") showR).color = "white") :=
  ⟨⟨by decide, by decide⟩,
    unresolvable_selection_views [avgFeat "AMUR" 3] "NOPE" (avgFeat "AMUR" 3)
      (by decide) (by decide) (by decide)⟩

/-- C5: the statistic extraction is asymmetric for missing values: the
monthly chart series of a feature missing jul still has 12 entries with 0 at
index 6, whereas the scale-domain value set excludes the missing entry
entirely — the feature contributes nothing to it. -/
theorem missing_month_asymmetry (f : Feature) (h : f.getNum "jul" = none) :
    (monthlySeries f).length = 12 ∧
    (monthlySeries f)[6]? = some 0 ∧
    ∀ pre post : List Feature,
      extractValues (pre ++ f :: post) "jul" =
        extractValues pre "jul" ++ extractValues post "jul" := by
  refine ⟨by simp [monthlySeries, MONTHS], ?_, ?_⟩
  · simp [monthlySeries, MONTHS, h]
  · intro pre post
    simp [extractValues, h]

/-- C5 witness: the asymmetry theorem instantiated on the concrete feature
missing jul, alone in its collection. -/
theorem missing_month_asymmetry_witness :
    featNoJul.getNum "jul" = none ∧
    (monthlySeries featNoJul).length = 12 ∧
    (monthlySeries featNoJul)[6]? = some 0 ∧
    extractValues ([] ++ featNoJul :: []) "jul" =
      extractValues [] "jul" ++ extractValues [] "jul" :=
  ⟨by decide, (missing_month_asymmetry featNoJul (by decide)).1,
    (missing_month_asymmetry featNoJul (by decide)).2.1,
    (missing_month_asymmetry featNoJul (by decide)).2.2 [] []⟩

unseal Rat.add Rat.mul Rat.inv Rat.sub in
/-- C6: the fixed continuous scale is built from the single global minimum and
maximum over all features and all twelve month fields (absent values
excluded): mn and mx are a member of and bounds for that global value set,
the scale maps mn exactly to fee5d9 = rgb(254, 229, 217) and mx exactly to
a50f15 = rgb(165, 15, 21), and the midpoint (mn + mx)/2 interpolates to the
channelwise-equidistant color between them. -/
theorem monthly_scale_global_extrema (features : List Feature) (mn mx : ℚ)
    (hmin : (calculateMonthlyGlobalMinMax features).1 = some mn)
    (hmax : (calculateMonthlyGlobalMinMax features).2 = some mx)
    (hlt : mn < mx) :
    (mn ∈ allMonthlyValues features ∧ ∀ w ∈ allMonthlyValues features, mn ≤ w) ∧
    (mx ∈ allMonthlyValues features ∧ ∀ w ∈ allMonthlyValues features, w ≤ mx) ∧
    createFixedContinuousColorScale mn mx mn = formatRgb colorMonthlyLow ∧
    createFixedContinuousColorScale mn mx mx = formatRgb colorMonthlyHigh ∧
    formatRgb colorMonthlyLow = ⟨254, 229, 217⟩ ∧
    formatRgb colorMonthlyHigh = ⟨165, 15, 21⟩ ∧
    bimap2 mn mx colorMonthlyLow colorMonthlyHigh ((mn + mx) / 2) =
      ⟨(254 + 165) / 2, (229 + 15) / 2, (217 + 21) / 2⟩ := by
  simp only [calculateMonthlyGlobalMinMax] at hmin hmax
  have hne : mx - mn ≠ 0 := sub_ne_zero.mpr hlt.ne'
  have hnlt : ¬ mx < mn := not_lt.mpr (le_of_lt hlt)
  have ht : deinterpolate mn mx ((mn + mx) / 2) = 1/2 := by
    rw [deinterpolate, if_neg hne]
    field_simp
    ring
  refine ⟨min?_spec hmin, max?_spec hmax, ?_, ?_, by decide, by decide, ?_⟩
  · simp [createFixedContinuousColorScale, scaleLinear2, bimap2, deinterpolate, hnlt, hne,
      interpolateRgb]
  · simp [createFixedContinuousColorScale, scaleLinear2, bimap2, deinterpolate, hnlt, hne,
      interpolateRgb, div_self hne]
  · rw [bimap2, if_neg hnlt, ht]
    simp only [interpolateRgb, colorMonthlyLow, colorMonthlyHigh]
    norm_num

unseal Rat.add Rat.mul Rat.inv Rat.sub in
/-- C6 witness: the theorem instantiated on a two-feature collection whose
monthly values have global minimum 0 and maximum 100. -/
theorem monthly_scale_global_extrema_witness :
    (calculateMonthlyGlobalMinMax monthFeats).1 = some 0 ∧
    (calculateMonthlyGlobalMinMax monthFeats).2 = some 100 ∧
    (0 : ℚ) < 100 ∧
    createFixedContinuousColorScale 0 100 0 = formatRgb colorMonthlyLow ∧
    createFixedContinuousColorScale 0 100 100 = formatRgb colorMonthlyHigh ∧
    bimap2 0 100 colorMonthlyLow colorMonthlyHigh ((0 + 100) / 2) =
      ⟨(254 + 165) / 2, (229 + 15) / 2, (217 + 21) / 2⟩ :=
  ⟨by decide, by decide, by decide,
    (monthly_scale_global_extrema monthFeats 0 100 (by decide) (by decide)
      (by decide)).2.2.1,
    (monthly_scale_global_extrema monthFeats 0 100 (by decide) (by decide)
      (by decide)).2.2.2.1,
    (monthly_scale_global_extrema monthFeats 0 100 (by decide) (by decide)
      (by decide)).2.2.2.2.2.2⟩

/-- C7: constructing a diverging scale with a cutoff strategy name other than
percentile, mean or fixed throws at construction time, and construction with
each of the three recognized names succeeds without raising. -/
theorem cutoff_type_validation (features : List Feature) (property : String)
    (ct : String) (cv : ℚ) :
    (ct ≠ "percentile" → ct ≠ "mean" → ct ≠ "fixed" →
      createDivergingColorScale features property ct cv =
        Except.error "Invalid cutoffType. Use percentile, mean, or fixed.") ∧
    (createDivergingColorScale features property "percentile" cv).isOk = true ∧
    (createDivergingColorScale features property "mean" cv).isOk = true ∧
    (createDivergingColorScale features property "fixed" cv).isOk = true := by
  refine ⟨?_, ?_, ?_, ?_⟩
  · intro h1 h2 h3
    simp [createDivergingColorScale, computeCutoff, h1, h2, h3, Except.map]
  all_goals simp [createDivergingColorScale, computeCutoff, Except.map, Except.isOk,
    Except.toBool]

/-- C7 witness: the unrecognized name quantile throws while percentile
succeeds, on the 1..10 collection. -/
theorem cutoff_type_validation_witness :
    ("quantile" ≠ "percentile" ∧ "quantile" ≠ "mean" ∧ "quantile" ≠ "fixed") ∧
    createDivergingColorScale feats1to10 "average" "quantile" (3/10) =
      Except.error "Invalid cutoffType. Use percentile, mean, or fixed." ∧
    (createDivergingColorScale feats1to10 "average" "percentile" (3/10)).isOk = true :=
  ⟨⟨by decide, by decide, by decide⟩,
    (cutoff_type_validation feats1to10 "average" "quantile" (3/10)).1
      (by decide) (by decide) (by decide),
    (cutoff_type_validation feats1to10 "average" "percentile" (3/10)).2.1⟩

/-- C8: every feature with both population and average scarcity defined yields
a treemap node whose value is exactly population × average scarcity, and the
children list is sorted descending by value (largest first). -/
theorem treemap_value_and_order (features : List Feature) :
    (∀ f ∈ features, ∀ p a : ℚ, f.getNum "population" = some p →
      f.getNum "average" = some a →
      ∃ node ∈ (calculateWaterScarcity features).children,
        node.id = f.riverbasin ∧ node.value = p * a ∧
        node.population = some p ∧ node.waterScarcity = some a) ∧
    (calculateWaterScarcity features).children.Sorted byValueDesc := by
  constructor
  · intro f hf p a hp ha
    refine ⟨⟨f.riverbasin, a * p, some p, some a, f.continent⟩, ?_, rfl, mul_comm a p,
      rfl, rfl⟩
    simp only [calculateWaterScarcity, List.mem_insertionSort, List.mem_filterMap]
    exact ⟨f, hf, by simp [Feature.getRaw_of_getNum ha, Feature.getRaw_of_getNum hp,
      nullToZero]⟩
  · simp only [calculateWaterScarcity]
    exact List.sorted_insertionSort byValueDesc _

unseal Rat.add Rat.mul Rat.inv Rat.sub in
/-- C8 witness: the theorem instantiated on the feature with population
1,000,000 and average scarcity 5, whose node value is exactly 5,000,000. -/
theorem treemap_value_and_order_witness :
    (featBig ∈ [featBig] ∧ featBig.getNum "population" = some 1000000 ∧
      featBig.getNum "average" = some 5 ∧ ((1000000 : ℚ) * 5 = 5000000)) ∧
    ∃ node ∈ (calculateWaterScarcity [featBig]).children,
      node.id = featBig.riverbasin ∧ node.value = (1000000 : ℚ) * 5 ∧
      node.population = some 1000000 ∧ node.waterScarcity = some 5 :=
  ⟨⟨by decide, by decide, by decide, by decide⟩,
    (treemap_value_and_order [featBig]).1 featBig (by decide) 1000000 5
      (by decide) (by decide)⟩

/-- C9: with no selection the bar-chart view renders the placeholder prompt
and does not resolve to the default basin; when the selection is a nonempty
name that matches a feature, that feature is charted (no fallback); the AMUR
fallback takes effect only when the nonempty selection matches no feature. -/
theorem barchart_selection_semantics (data : List Feature) (s : String) (hs : s ≠ "") :
    barChart data none = .placeholder ∧
    (∀ b, findBasin data s = some b → barChart data (some s) = .chart b (monthlySeries b)) ∧
    (findBasin data s = none →
      barChart data (some s) =
        match findBasin data "AMUR" with
        | some b => .chart b (monthlySeries b)
        | none => .noData) := by
  refine ⟨rfl, ?_, ?_⟩
  · intro b hb
    simp [barChart, hs, Option.orElse, hb]
  · intro hnone
    cases hA : findBasin data "AMUR" with
    | none => simp [barChart, hs, Option.orElse, hnone, hA]
    | some b => simp [barChart, hs, Option.orElse, hnone, hA]

/-- C9 witness: the theorem instantiated on the one-feature AMUR collection
with the non-matching nonempty selection X. -/
theorem barchart_selection_semantics_witness :
    ("X" ≠ "" ∧ findBasin [avgFeat "AMUR" 3] "X" = none) ∧
    barChart [avgFeat "AMUR" 3] none = .placeholder ∧
    barChart [avgFeat "AMUR" 3] (some "X") =
      (match findBasin [avgFeat "AMUR" 3] "AMUR" with
        | some b => .chart b (monthlySeries b)
        | none => .noData) :=
  ⟨⟨by decide, by decide⟩,
    (barchart_selection_semantics [avgFeat "AMUR" 3] "X" (by decide)).1,
    (barchart_selection_semantics [avgFeat "AMUR" 3] "X" (by decide)).2.2 (by decide)⟩

unseal Rat.add Rat.mul Rat.inv Rat.sub in
/-- C10 counterexample: a feature whose average is a present null — the
dataset's missing-value encoding, treated as missing by every map and chart
filter (its filtered view is none) — is not omitted by TreeMap.js's
undefined-only guard: it is pushed as a node whose value is the
zero-substituted product null × 1,000,000 = 0 and whose waterScarcity field
holds the null. -/
theorem null_property_zero_substituted :
    featNullAvg.getNum "average" = none ∧
    (calculateWaterScarcity [featNullAvg]).children =
      [⟨some "NULLBASIN", 0, some 1000000, none, none⟩] ∧
    (⟨some "NULLBASIN", (0 : ℚ), some 1000000, none, none⟩ : TreeNode).waterScarcity =
      none := by
  refine ⟨by decide, by decide, by decide⟩

/-- C10 amended: a feature is omitted from the treemap hierarchy exactly when
its average or population property is absent (strictly undefined); every
node corresponds to a feature with both properties present and carries their
raw values — possibly null — with value the JavaScript product in which null
coerces to 0; in particular a feature whose average is a present null and
whose population is present is included with the zero-substituted value 0
rather than omitted. -/
theorem treemap_children_complete (features : List Feature) :
    (calculateWaterScarcity features).children.length =
      (features.filter (fun f =>
        (f.getRaw "average").isSome && (f.getRaw "population").isSome)).length ∧
    (∀ node ∈ (calculateWaterScarcity features).children,
      ∃ f ∈ features, f.getRaw "average" = some node.waterScarcity ∧
        f.getRaw "population" = some node.population ∧
        node.value = nullToZero node.waterScarcity * nullToZero node.population) ∧
    (∀ f ∈ features, f.getRaw "average" = some none →
      ∀ pop, f.getRaw "population" = some pop →
        ∃ node ∈ (calculateWaterScarcity features).children,
          node.id = f.riverbasin ∧ node.value = 0 ∧ node.waterScarcity = none) := by
  refine ⟨?_, ?_, ?_⟩
  · simp only [calculateWaterScarcity, List.length_insertionSort]
    induction features with
    | nil => rfl
    | cons f fs ih =>
      cases ha : f.getRaw "average" with
      | none => simp [List.filterMap_cons, List.filter_cons, ha, ih]
      | some a =>
        cases hp : f.getRaw "population" with
        | none => simp [List.filterMap_cons, List.filter_cons, ha, hp, ih]
        | some p => simp [List.filterMap_cons, List.filter_cons, ha, hp, ih]
  · intro node hnode
    simp only [calculateWaterScarcity, List.mem_insertionSort, List.mem_filterMap] at hnode
    obtain ⟨f, hf, hmk⟩ := hnode
    cases ha : f.getRaw "average" with
    | none => rw [ha] at hmk; exact absurd hmk (by simp)
    | some ws =>
      cases hp : f.getRaw "population" with
      | none => rw [ha, hp] at hmk; exact absurd hmk (by simp)
      | some pop =>
        rw [ha, hp] at hmk
        have hn : (⟨f.riverbasin, nullToZero ws * nullToZero pop, pop, ws,
            f.continent⟩ : TreeNode) = node := Option.some.inj hmk
        subst hn
        exact ⟨f, hf, ha, hp, rfl⟩
  · intro f hf ha pop hp
    refine ⟨⟨f.riverbasin, 0, pop, none, f.continent⟩, ?_, rfl, rfl, rfl⟩
    simp only [calculateWaterScarcity, List.mem_insertionSort, List.mem_filterMap]
    refine ⟨f, hf, ?_⟩
    simp [ha, hp, nullToZero]

unseal Rat.add Rat.mul Rat.inv Rat.sub in
/-- C10 witness: on the collection of one complete feature and one
null-average feature, both pass the undefined-only guard (children count 2,
by the theorem's count conjunct), and the theorem applied at the null-average
feature yields its zero-valued node. -/
theorem treemap_children_complete_witness :
    (([featBig, featNullAvg].filter (fun f =>
      (f.getRaw "average").isSome && (f.getRaw "population").isSome)).length = 2 ∧
      featNullAvg ∈ [featBig, featNullAvg] ∧
      featNullAvg.getRaw "average" = some none ∧
      featNullAvg.getRaw "population" = some (some 1000000)) ∧
    (calculateWaterScarcity [featBig, featNullAvg]).children.length = 2 ∧
    ∃ node ∈ (calculateWaterScarcity [featBig, featNullAvg]).children,
      node.id = featNullAvg.riverbasin ∧ node.value = 0 ∧ node.waterScarcity = none :=
  ⟨⟨by decide, by decide, by decide, by decide⟩,
    (treemap_children_complete [featBig, featNullAvg]).1.trans (by decide),
    (treemap_children_complete [featBig, featNullAvg]).2.2 featNullAvg (by decide)
      (by decide) (some 1000000) (by decide)⟩

end WaterScarcity
